import Mathlib

/-!
Verification of the core simulation of an Asteroids clone.

The embedding models the TypeScript source over the real numbers:
JS numbers become `ℝ` (integer-valued counters such as `score`, `lives`
and bullet `lifespan` become `ℤ`), the JS remainder operator `%`
(truncated remainder, sign of the dividend) becomes `jsRem`, and
`Math.random()` draws are passed in explicitly as parameters.
-/

namespace AsteroidsGame

noncomputable section

/-- 2D point, mirroring the `Point` interface (x, y). -/
structure Point where
  x : ℝ
  y : ℝ

/-- The projection of a game entity that `checkCollision` reads:
its position and its collision radius `size`. -/
structure Obj where
  position : Point
  size : ℝ

/-- Mirrors the `Ship` interface: a `GameObject` plus `thrusting`. -/
structure Ship where
  position : Point
  velocity : Point
  rotation : ℝ
  size : ℝ
  thrusting : Bool

/-- Mirrors the `Asteroid` interface: a `GameObject` plus `vertices`. -/
structure Asteroid where
  position : Point
  velocity : Point
  rotation : ℝ
  size : ℝ
  vertices : List Point

/-- Mirrors the `Bullet` interface: a `GameObject` plus `lifespan`. -/
structure Bullet where
  position : Point
  velocity : Point
  rotation : ℝ
  size : ℝ
  lifespan : ℤ

/-- Mirrors the `GameState` interface. -/
structure GameState where
  ship : Ship
  asteroids : List Asteroid
  bullets : List Bullet
  score : ℤ
  lives : ℤ
  gameOver : Bool

def Ship.obj (s : Ship) : Obj := ⟨s.position, s.size⟩

def Bullet.obj (b : Bullet) : Obj := ⟨b.position, b.size⟩

/-- Truncation toward zero, as used by the JS `%` operator. -/
def rtrunc (x : ℝ) : ℤ := if 0 ≤ x then ⌊x⌋ else ⌈x⌉

/-- The JS remainder `a % b`: `a - b * trunc (a / b)`.  The result has the
sign of the dividend `a` (for `b ≠ 0`). -/
def jsRem (a b : ℝ) : ℝ := a - b * (rtrunc (a / b) : ℝ)

/-- One-axis screen wrap as written in the source:
`position = (position + dimension) % dimension`. -/
def wrap (p dim : ℝ) : ℝ := jsRem (p + dim) dim

/-- Ship velocity after the thrust step of `updateGameObjects`:
if `thrusting`, add `(cos rotation, sin rotation) * 0.1`. -/
def shipVelThrust (s : Ship) : Point :=
  if s.thrusting then
    ⟨s.velocity.x + Real.cos s.rotation * 0.1, s.velocity.y + Real.sin s.rotation * 0.1⟩
  else s.velocity

/-- Ship velocity after the friction step: multiply by `0.99`. -/
def shipVelFriction (s : Ship) : Point :=
  ⟨(shipVelThrust s).x * 0.99, (shipVelThrust s).y * 0.99⟩

/-- `Math.sqrt(v.x * v.x + v.y * v.y)`, the speed computation of the source. -/
def speedOf (v : Point) : ℝ := Real.sqrt (v.x * v.x + v.y * v.y)

/-- Ship velocity after the speed clamp: if the post-friction speed exceeds
`maxSpeed = 5`, multiply both components by `scale = 5 / speed`. -/
def shipVelClamped (s : Ship) : Point :=
  if 5 < speedOf (shipVelFriction s) then
    ⟨(shipVelFriction s).x * (5 / speedOf (shipVelFriction s)),
     (shipVelFriction s).y * (5 / speedOf (shipVelFriction s))⟩
  else shipVelFriction s

/-- The ship part of `updateGameObjects`: thrust, friction, speed clamp,
position integration, then wraparound on both axes. -/
def updateShip (s : Ship) (w h : ℝ) : Ship :=
  { s with
    velocity := shipVelClamped s
    position := ⟨wrap (s.position.x + (shipVelClamped s).x) w,
                 wrap (s.position.y + (shipVelClamped s).y) h⟩ }

/-- The asteroid part of `updateGameObjects`: add velocity to position,
wrap both axes, increment rotation by `0.02`. -/
def updateAsteroid (w h : ℝ) (a : Asteroid) : Asteroid :=
  { a with
    position := ⟨wrap (a.position.x + a.velocity.x) w,
                 wrap (a.position.y + a.velocity.y) h⟩
    rotation := a.rotation + 0.02 }

/-- The per-bullet part of `updateGameObjects`: add velocity to position,
wrap both axes, decrement `lifespan`. -/
def updateBullet (w h : ℝ) (b : Bullet) : Bullet :=
  { b with
    position := ⟨wrap (b.position.x + b.velocity.x) w,
                 wrap (b.position.y + b.velocity.y) h⟩
    lifespan := b.lifespan - 1 }

/-- Mirrors `updateGameObjects(state, width, height)`: updates the ship,
maps the asteroid update over the asteroids, maps the bullet update over
the bullets and filters out bullets whose new lifespan is `≤ 0`.
Score, lives and gameOver are passed through unchanged. -/
def updateGameObjects (s : GameState) (w h : ℝ) : GameState :=
  { s with
    ship := updateShip s.ship w h
    asteroids := s.asteroids.map (updateAsteroid w h)
    bullets := (s.bullets.map (updateBullet w h)).filter
      (fun b => decide (0 < b.lifespan)) }

/-- Euclidean distance between two positions, as computed by
`checkCollision`: `Math.sqrt((x1-x2)^2 + (y1-y2)^2)`. -/
def distOf (p q : Point) : ℝ := Real.sqrt ((p.x - q.x) ^ 2 + (p.y - q.y) ^ 2)

/-- Mirrors `checkCollision(obj1, asteroid)`: true iff the Euclidean
distance between the positions is strictly below the sum of the sizes. -/
def checkCollision (o : Obj) (a : Asteroid) : Bool :=
  decide (distOf o.position a.position < o.size + a.size)

/-- One `Math.random()` draw per randomized attribute of `createAsteroid`,
passed in explicitly (`rVar i` is the variance draw of vertex `i`). -/
structure AstRand where
  rSize : ℝ
  rNum : ℝ
  rVar : ℕ → ℝ
  rPosX : ℝ
  rPosY : ℝ
  rVelX : ℝ
  rVelY : ℝ
  rRot : ℝ

/-- Mirrors `createAsteroid(canvasWidth, canvasHeight)` with the random
draws made explicit: size `r*30+20`, `floor(r*5)+7` vertices at angles
`(i/n)*2π` and radius `size * (r*0.4+0.8)`, position uniform in the arena,
velocity components `(r-0.5)*2`, rotation `r*2π`. -/
def createAsteroid (w h : ℝ) (r : AstRand) : Asteroid :=
  let size := r.rSize * 30 + 20
  let numVertices : ℤ := ⌊r.rNum * 5⌋ + 7
  { position := ⟨r.rPosX * w, r.rPosY * h⟩
    velocity := ⟨(r.rVelX - 0.5) * 2, (r.rVelY - 0.5) * 2⟩
    rotation := r.rRot * Real.pi * 2
    size := size
    vertices := (List.range numVertices.toNat).map fun (i : ℕ) =>
      ⟨Real.cos (((i : ℝ) / (numVertices : ℝ)) * Real.pi * 2) * size * (r.rVar i * 0.4 + 0.8),
       Real.sin (((i : ℝ) / (numVertices : ℝ)) * Real.pi * 2) * size * (r.rVar i * 0.4 + 0.8)⟩ }

/-- Mirrors `handleCollisions(state)`, with the five `createAsteroid`
random draws of the refill path passed in explicitly as `rs`.
Ship-asteroid: if the ship collides with any asteroid, decrement lives;
if the new lives are `≤ 0` set gameOver, otherwise reset the ship to
`(400,300)` with zero velocity and rotation.  Bullet-asteroid: drop every
asteroid hit by some bullet and add `100` to the score per hit asteroid.
If no asteroid remains, refill with 5 fresh asteroids generated against
the hardcoded `800×600` arena.  Bullets pass through unchanged. -/
def handleCollisions (rs : Fin 5 → AstRand) (s : GameState) : GameState :=
  let collided := s.asteroids.any (fun a => checkCollision s.ship.obj a)
  let newLives := if collided then s.lives - 1 else s.lives
  let newGameOver := collided && decide (newLives ≤ 0)
  let newShip :=
    if collided && !(decide (newLives ≤ 0)) then
      { s.ship with position := ⟨400, 300⟩, velocity := ⟨0, 0⟩, rotation := 0 }
    else s.ship
  let hit : Asteroid → Bool := fun a => s.bullets.any (fun b => checkCollision b.obj a)
  let remaining := s.asteroids.filter (fun a => !(hit a))
  let newScore := s.score + 100 * (s.asteroids.countP hit : ℤ)
  let newAsteroids :=
    if remaining.isEmpty then List.ofFn (fun i : Fin 5 => createAsteroid 800 600 (rs i))
    else remaining
  { s with
    ship := newShip
    asteroids := newAsteroids
    score := newScore
    lives := newLives
    gameOver := newGameOver }

/-- Mirrors one step of the driver loop in the `Game` component:
apply held-key rotation (`ROTATION_SPEED = 0.1`, scaled by `dt`) and the
thrust flag to the ship, run `updateGameObjects` against the `800×600`
canvas, then run `handleCollisions` unless the incoming state already has
`gameOver = true`. -/
def frameStep (left right up : Bool) (dt : ℝ) (rs : Fin 5 → AstRand)
    (s : GameState) : GameState :=
  let rot1 := if left then s.ship.rotation - 0.1 * dt else s.ship.rotation
  let rot2 := if right then rot1 + 0.1 * dt else rot1
  let newShip := { s.ship with rotation := rot2, thrusting := up }
  let u := updateGameObjects { s with ship := newShip } 800 600
  if s.gameOver then u else handleCollisions rs u

/-! ### Concrete inputs used by witnesses and counterexamples -/

/-- Dummy random draws for the asteroid-refill path. -/
def rsW : Fin 5 → AstRand := fun _ => ⟨0, 0, fun _ => 0, 0, 0, 0, 0, 0⟩

/-- A resting ship inside the arena. -/
def shipHome : Ship := ⟨⟨100, 100⟩, ⟨0, 0⟩, 0, 20, false⟩

/-- A resting state with no asteroids and no bullets. -/
def stateHome : GameState := ⟨shipHome, [], [], 0, 3, false⟩

/-- A ship far outside the arena on the negative x side. -/
def shipFar : Ship := ⟨⟨-1000, 300⟩, ⟨0, 0⟩, 0, 20, false⟩

/-- A state whose ship position is far out of range (x = -1000). -/
def stateFar : GameState := ⟨shipFar, [], [], 0, 3, false⟩

/-- A motionless asteroid with rotation 0. -/
def astSpin : Asteroid := ⟨⟨100, 100⟩, ⟨0, 0⟩, 0, 30, []⟩

/-- A game-over state still containing an asteroid. -/
def stateOver : GameState := ⟨shipHome, [astSpin], [], 0, 0, true⟩

/-- An asteroid sitting exactly at position (200,200). -/
def astHit : Asteroid := ⟨⟨200, 200⟩, ⟨0, 0⟩, 0, 30, []⟩

/-- A ship sitting exactly on `astHit`. -/
def shipHit : Ship := ⟨⟨200, 200⟩, ⟨0, 0⟩, 0, 20, false⟩

/-- Ship on an asteroid with 3 lives. -/
def stateLives3 : GameState := ⟨shipHit, [astHit], [], 0, 3, false⟩

/-- Ship on an asteroid with 1 life. -/
def stateLives1 : GameState := ⟨shipHit, [astHit], [], 0, 1, false⟩

/-- An `Obj` of size 20 at the origin, as `checkCollision` sees a ship. -/
def objOrigin : Obj := ⟨⟨0, 0⟩, 20⟩

/-- An asteroid of size 30 at distance exactly 50 from the origin. -/
def astTouch : Asteroid := ⟨⟨50, 0⟩, ⟨0, 0⟩, 0, 30, []⟩

/-- An asteroid of size 30 at distance 49 from the origin. -/
def astNear : Asteroid := ⟨⟨49, 0⟩, ⟨0, 0⟩, 0, 30, []⟩

/-- A bullet with lifespan 60. -/
def bulletW : Bullet := ⟨⟨10, 10⟩, ⟨7, 0⟩, 0, 2, 60⟩

/-- A state holding one bullet of lifespan 60. -/
def stateBul : GameState := ⟨shipHome, [astSpin], [bulletW], 0, 3, false⟩

/-- A ship moving at speed 100. -/
def shipFast : Ship := ⟨⟨100, 100⟩, ⟨100, 0⟩, 0, 20, false⟩

/-- A state whose ship exceeds the speed limit. -/
def stateFast : GameState := ⟨shipFast, [], [], 0, 3, false⟩

/-- A game-over state with no asteroids and 5 lives. -/
def stateOverSafe : GameState := ⟨shipHome, [], [], 0, 5, true⟩

/-! ### Wraparound lemmas -/

theorem rtrunc_eq_floor {x : ℝ} (h : 0 ≤ x) : rtrunc x = ⌊x⌋ := if_pos h

/-- For a nonnegative dividend the JS remainder agrees with the
mathematical (floor) modulo, hence lands in `[0, b)`. -/
theorem jsRem_nonneg_lt {a b : ℝ} (hb : 0 < b) (ha : 0 ≤ a) :
    0 ≤ jsRem a b ∧ jsRem a b < b := by
  have hkey : jsRem a b = b * Int.fract (a / b) := by
    unfold jsRem
    rw [rtrunc_eq_floor (div_nonneg ha hb.le), ← Int.self_sub_floor, mul_sub,
      mul_div_cancel₀ a hb.ne']
  constructor
  · rw [hkey]
    exact mul_nonneg hb.le (Int.fract_nonneg _)
  · rw [hkey]
    calc b * Int.fract (a / b) < b * 1 :=
          mul_lt_mul_of_pos_left (Int.fract_lt_one _) hb
    _ = b := mul_one b

/-- The screen wrap lands in `[0, dim)` whenever the pre-wrap value is at
least `-dim`. -/
theorem wrap_mem {p dim : ℝ} (hd : 0 < dim) (hp : 0 ≤ p + dim) :
    0 ≤ wrap p dim ∧ wrap p dim < dim :=
  jsRem_nonneg_lt hd hp

/-- A non-thrusting ship at rest keeps a zero velocity through the
thrust, friction and clamp steps. -/
theorem shipVelClamped_still (s : Ship) (h1 : s.thrusting = false)
    (h2 : s.velocity = ⟨0, 0⟩) : shipVelClamped s = ⟨0, 0⟩ := by
  have ht : shipVelThrust s = ⟨0, 0⟩ := by
    unfold shipVelThrust
    rw [h1, h2]
    simp
  have hf : shipVelFriction s = ⟨0, 0⟩ := by
    unfold shipVelFriction
    rw [ht]
    simp
  have hs : speedOf (⟨0, 0⟩ : Point) = 0 := by
    simp [speedOf]
  unfold shipVelClamped
  rw [hf, hs]
  norm_num

/-! ### C1 -/

/-- C1 (amended): after one `updateGameObjects` tick against a positive
`width × height` arena, every object's position satisfies
`0 ≤ x < width` and `0 ≤ y < height`, provided every pre-wrap coordinate
(position plus that tick's velocity) is at least `-dimension`.  For
pre-wrap values below `-dimension` the JS remainder is negative and the
original unrestricted claim fails (see the counterexample). -/
theorem C1_positions_in_bounds (s : GameState) (w h : ℝ)
    (hw : 0 < w) (hh : 0 < h)
    (hshipx : 0 ≤ s.ship.position.x + (shipVelClamped s.ship).x + w)
    (hshipy : 0 ≤ s.ship.position.y + (shipVelClamped s.ship).y + h)
    (hast : ∀ a ∈ s.asteroids, 0 ≤ a.position.x + a.velocity.x + w ∧
      0 ≤ a.position.y + a.velocity.y + h)
    (hbul : ∀ b ∈ s.bullets, 0 ≤ b.position.x + b.velocity.x + w ∧
      0 ≤ b.position.y + b.velocity.y + h) :
    (0 ≤ (updateGameObjects s w h).ship.position.x ∧
      (updateGameObjects s w h).ship.position.x < w ∧
      0 ≤ (updateGameObjects s w h).ship.position.y ∧
      (updateGameObjects s w h).ship.position.y < h) ∧
    (∀ a ∈ (updateGameObjects s w h).asteroids,
      0 ≤ a.position.x ∧ a.position.x < w ∧ 0 ≤ a.position.y ∧ a.position.y < h) ∧
    (∀ b ∈ (updateGameObjects s w h).bullets,
      0 ≤ b.position.x ∧ b.position.x < w ∧ 0 ≤ b.position.y ∧ b.position.y < h) := by
  refine ⟨?_, ?_, ?_⟩
  · have hx := wrap_mem hw hshipx
    have hy := wrap_mem hh hshipy
    exact ⟨hx.1, hx.2, hy.1, hy.2⟩
  · intro a ha
    have ha' : a ∈ s.asteroids.map (updateAsteroid w h) := ha
    rw [List.mem_map] at ha'
    obtain ⟨a0, ha0, rfl⟩ := ha'
    obtain ⟨h1, h2⟩ := hast a0 ha0
    have hx := wrap_mem hw h1
    have hy := wrap_mem hh h2
    exact ⟨hx.1, hx.2, hy.1, hy.2⟩
  · intro b hb
    have hb' : b ∈ (s.bullets.map (updateBullet w h)).filter
        (fun b => decide (0 < b.lifespan)) := hb
    have hb'' := List.mem_of_mem_filter hb'
    rw [List.mem_map] at hb''
    obtain ⟨b0, hb0, rfl⟩ := hb''
    obtain ⟨h1, h2⟩ := hbul b0 hb0
    have hx := wrap_mem hw h1
    have hy := wrap_mem hh h2
    exact ⟨hx.1, hx.2, hy.1, hy.2⟩

/-- C1 counterexample: with the ship resting at `x = -1000` in the
`800×600` arena, one `updateGameObjects` tick leaves
`position.x = -200 < 0`, because the JS remainder keeps the sign of its
dividend. -/
theorem C1_counterexample :
    ¬ (0 ≤ (updateGameObjects stateFar 800 600).ship.position.x) := by
  have hc : shipVelClamped stateFar.ship = ⟨0, 0⟩ :=
    shipVelClamped_still _ rfl rfl
  have hpos : (updateGameObjects stateFar 800 600).ship.position.x =
      wrap (stateFar.ship.position.x + (shipVelClamped stateFar.ship).x) 800 := rfl
  rw [hpos, hc]
  have harg : stateFar.ship.position.x + (Point.mk 0 0).x = -1000 := by
    show (-1000 : ℝ) + 0 = -1000
    norm_num
  rw [harg]
  have hwrap : wrap (-1000 : ℝ) 800 = -200 := by
    unfold wrap jsRem rtrunc
    have h1 : ((-1000 : ℝ) + 800) / 800 = -(1 / 4) := by norm_num
    rw [h1, if_neg (by norm_num)]
    have h2 : ⌈(-(1 / 4) : ℝ)⌉ = 0 := by
      rw [Int.ceil_eq_iff]
      constructor <;> norm_num
    rw [h2]
    norm_num
  rw [hwrap]
  norm_num

/-- C1 witness: the amended theorem applied to a concrete resting state
in the `800×600` arena. -/
theorem C1_witness :
    0 ≤ (updateGameObjects stateHome 800 600).ship.position.x ∧
    (updateGameObjects stateHome 800 600).ship.position.x < 800 ∧
    0 ≤ (updateGameObjects stateHome 800 600).ship.position.y ∧
    (updateGameObjects stateHome 800 600).ship.position.y < 600 := by
  have hc : shipVelClamped stateHome.ship = ⟨0, 0⟩ :=
    shipVelClamped_still _ rfl rfl
  exact (C1_positions_in_bounds stateHome 800 600 (by norm_num) (by norm_num)
    (by rw [hc]; show (0:ℝ) ≤ 100 + 0 + 800; norm_num)
    (by rw [hc]; show (0:ℝ) ≤ 100 + 0 + 600; norm_num)
    (by intro a ha; exact absurd ha (List.not_mem_nil a))
    (by intro b hb; exact absurd hb (List.not_mem_nil b))).1

/-! ### C2 -/

/-- C2 (amended): once `gameOver = true`, a driver frame step skips
collision resolution: score, lives and the gameOver flag are unchanged by
the step, and the asteroids undergo pure motion integration only (so
kinematic state, contrary to the original claim, still changes). -/
theorem C2_gameOver_skips_collisions (l r u : Bool) (dt : ℝ)
    (rs : Fin 5 → AstRand) (s : GameState) (hgo : s.gameOver = true) :
    (frameStep l r u dt rs s).score = s.score ∧
    (frameStep l r u dt rs s).lives = s.lives ∧
    (frameStep l r u dt rs s).gameOver = true ∧
    (frameStep l r u dt rs s).asteroids = s.asteroids.map (updateAsteroid 800 600) := by
  refine ⟨?_, ?_, ?_, ?_⟩ <;> simp [frameStep, hgo, updateGameObjects]

/-- C2 counterexample: in a game-over state holding one motionless
asteroid of rotation `0`, the next driver frame still advances the
asteroid's rotation to `0.02`, so kinematic state is mutated after
`gameOver = true`. -/
theorem C2_counterexample :
    (frameStep false false false 1 rsW stateOver).asteroids.map (fun a => a.rotation) ≠
      stateOver.asteroids.map (fun a => a.rotation) := by
  simp [frameStep, stateOver, updateGameObjects, updateAsteroid, astSpin]
  norm_num

/-- C2 witness: the amended theorem applied to a concrete game-over
state. -/
theorem C2_witness :
    stateOver.gameOver = true ∧
    (frameStep false false false 1 rsW stateOver).score = stateOver.score ∧
    (frameStep false false false 1 rsW stateOver).lives = stateOver.lives ∧
    (frameStep false false false 1 rsW stateOver).gameOver = true := by
  have h := C2_gameOver_skips_collisions false false false 1 rsW stateOver rfl
  exact ⟨rfl, h.1, h.2.1, h.2.2.1⟩

/-! ### C3 -/

/-- C3: in every `handleCollisions` call in which the ship collides with
some asteroid, lives drop by exactly one; if the resulting lives are
`≤ 0` the game is flagged over and the ship is left unchanged where it
died, otherwise the ship is reset to `(400,300)` with zero velocity and
zero rotation and the returned gameOver flag is false. -/
theorem C3_ship_collision (rs : Fin 5 → AstRand) (s : GameState)
    (hcol : s.asteroids.any (fun a => checkCollision s.ship.obj a) = true) :
    (handleCollisions rs s).lives = s.lives - 1 ∧
    (if s.lives - 1 ≤ 0 then
        (handleCollisions rs s).gameOver = true ∧ (handleCollisions rs s).ship = s.ship
      else
        (handleCollisions rs s).gameOver = false ∧
        (handleCollisions rs s).ship =
          { s.ship with position := ⟨400, 300⟩, velocity := ⟨0, 0⟩, rotation := 0 }) := by
  by_cases hl : s.lives - 1 ≤ 0
  · simp [handleCollisions, hcol, hl]
  · simp [handleCollisions, hcol, hl]

/-- The ship sitting exactly on `astHit` collides with it. -/
theorem checkCollision_shipHit : checkCollision shipHit.obj astHit = true := by
  have h0 : distOf shipHit.obj.position astHit.position = 0 := by
    unfold distOf shipHit astHit Ship.obj
    norm_num [Real.sqrt_zero]
  unfold checkCollision
  rw [h0]
  norm_num [shipHit, astHit, Ship.obj]

/-- C3 witness: the two scenarios of the claim.  With 3 lives, a ship on
an asteroid's exact position drops to 2 lives, is reset to `(400,300)`
with zero velocity and rotation, and the game is not over; with 1 life it
drops to 0 lives and the game is over with the ship left unchanged. -/
theorem C3_witness :
    ((handleCollisions rsW stateLives3).lives = 2 ∧
     (handleCollisions rsW stateLives3).gameOver = false ∧
     (handleCollisions rsW stateLives3).ship.position.x = 400 ∧
     (handleCollisions rsW stateLives3).ship.position.y = 300 ∧
     (handleCollisions rsW stateLives3).ship.velocity = ⟨0, 0⟩ ∧
     (handleCollisions rsW stateLives3).ship.rotation = 0) ∧
    ((handleCollisions rsW stateLives1).lives = 0 ∧
     (handleCollisions rsW stateLives1).gameOver = true ∧
     (handleCollisions rsW stateLives1).ship = stateLives1.ship) := by
  have h3 := C3_ship_collision rsW stateLives3
    (by simp [stateLives3, checkCollision_shipHit])
  have h1 := C3_ship_collision rsW stateLives1
    (by simp [stateLives1, checkCollision_shipHit])
  obtain ⟨h3a, h3b⟩ := h3
  obtain ⟨h1a, h1b⟩ := h1
  have e3 : stateLives3.lives = 3 := rfl
  have e1 : stateLives1.lives = 1 := rfl
  rw [e3] at h3a h3b
  rw [e1] at h1a h1b
  rw [if_neg (by norm_num : ¬((3:ℤ) - 1 ≤ 0))] at h3b
  rw [if_pos (by norm_num : ((1:ℤ) - 1 ≤ 0))] at h1b
  obtain ⟨h3go, h3ship⟩ := h3b
  obtain ⟨h1go, h1ship⟩ := h1b
  refine ⟨⟨?_, h3go, ?_, ?_, ?_, ?_⟩, ⟨?_, h1go, h1ship⟩⟩
  · rw [h3a]; norm_num
  · rw [h3ship]
  · rw [h3ship]
  · rw [h3ship]
  · rw [h3ship]
  · rw [h1a]; norm_num

/-! ### C4 -/

/-- C4: after every `handleCollisions` call the asteroid collection is
non-empty.  If every input asteroid was hit by some bullet (or the input
was empty), the output is exactly the 5 freshly generated asteroids
against the fixed `800×600` arena; otherwise the output is the list of
surviving asteroids, a non-empty sublist of the input. -/
theorem C4_asteroids_nonempty (rs : Fin 5 → AstRand) (s : GameState) :
    (handleCollisions rs s).asteroids ≠ [] ∧
    (s.asteroids.filter
        (fun a => !(s.bullets.any (fun b => checkCollision b.obj a))) = [] →
      (handleCollisions rs s).asteroids =
        List.ofFn (fun i : Fin 5 => createAsteroid 800 600 (rs i))) ∧
    (s.asteroids.filter
        (fun a => !(s.bullets.any (fun b => checkCollision b.obj a))) ≠ [] →
      (handleCollisions rs s).asteroids =
        s.asteroids.filter
          (fun a => !(s.bullets.any (fun b => checkCollision b.obj a))) ∧
      ((handleCollisions rs s).asteroids).Sublist s.asteroids) := by
  have hout : (handleCollisions rs s).asteroids =
      (if (s.asteroids.filter
            (fun a => !(s.bullets.any (fun b => checkCollision b.obj a)))).isEmpty
       then List.ofFn (fun i : Fin 5 => createAsteroid 800 600 (rs i))
       else s.asteroids.filter
            (fun a => !(s.bullets.any (fun b => checkCollision b.obj a)))) := rfl
  by_cases he : s.asteroids.filter
      (fun a => !(s.bullets.any (fun b => checkCollision b.obj a))) = []
  · rw [he] at hout
    simp only [List.isEmpty_nil, if_true] at hout
    refine ⟨?_, fun _ => hout, fun hne => absurd he hne⟩
    rw [hout]
    intro hc
    have hlen := congrArg List.length hc
    simp at hlen
  · rw [if_neg (by simp [he])] at hout
    refine ⟨by rw [hout]; exact he, fun hemp => absurd hemp he, fun _ => ⟨hout, ?_⟩⟩
    rw [hout]
    exact List.filter_sublist _

/-- C4 witness: on a state with no asteroids the resolver refills the
field with exactly the 5 freshly generated asteroids, so the output is
non-empty. -/
theorem C4_witness :
    (handleCollisions rsW stateHome).asteroids ≠ [] ∧
    (handleCollisions rsW stateHome).asteroids =
      List.ofFn (fun i : Fin 5 => createAsteroid 800 600 (rsW i)) := by
  have h := C4_asteroids_nonempty rsW stateHome
  exact ⟨h.1, h.2.1 rfl⟩

/-! ### C5 -/

/-- C5: the collision predicate holds iff the Euclidean distance between
the positions is strictly less than the sum of the `size` fields; at
distance exactly the sum the predicate is false, and at the sum minus any
positive ε it is true. -/
theorem C5_collision_strict (o : Obj) (a : Asteroid) :
    (checkCollision o a = true ↔
      distOf o.position a.position < o.size + a.size) ∧
    (distOf o.position a.position = o.size + a.size →
      checkCollision o a = false) ∧
    (∀ ε : ℝ, 0 < ε → distOf o.position a.position = o.size + a.size - ε →
      checkCollision o a = true) := by
  refine ⟨?_, ?_, ?_⟩
  · simp [checkCollision]
  · intro hd
    simp [checkCollision, hd]
  · intro ε hε hd
    simp only [checkCollision, hd, decide_eq_true_eq]
    linarith

/-- C5 witness: at distance exactly `50 = 20 + 30` two entities do not
collide, while at distance `49 = 50 - 1` they do. -/
theorem C5_witness :
    checkCollision objOrigin astTouch = false ∧
    checkCollision objOrigin astNear = true := by
  have hd1 : distOf objOrigin.position astTouch.position =
      objOrigin.size + astTouch.size := by
    show Real.sqrt (((0:ℝ) - 50) ^ 2 + ((0:ℝ) - 0) ^ 2) = 20 + 30
    rw [show ((0:ℝ) - 50) ^ 2 + ((0:ℝ) - 0) ^ 2 = 50 ^ 2 by norm_num,
      Real.sqrt_sq (by norm_num : (0:ℝ) ≤ 50)]
    norm_num
  have hd2 : distOf objOrigin.position astNear.position =
      objOrigin.size + astNear.size - 1 := by
    show Real.sqrt (((0:ℝ) - 49) ^ 2 + ((0:ℝ) - 0) ^ 2) = 20 + 30 - 1
    rw [show ((0:ℝ) - 49) ^ 2 + ((0:ℝ) - 0) ^ 2 = 49 ^ 2 by norm_num,
      Real.sqrt_sq (by norm_num : (0:ℝ) ≤ 49)]
    norm_num
  exact ⟨(C5_collision_strict objOrigin astTouch).2.1 hd1,
    (C5_collision_strict objOrigin astNear).2.2 1 one_pos hd2⟩

/-! ### C8 -/

/-- C8: `handleCollisions` returns the bullet collection unchanged (so a
bullet may destroy several overlapping asteroids or persist after impact)
and a score equal to the input score plus 100 for each asteroid hit by
some bullet; in particular the score never decreases. -/
theorem C8_score_bullets (rs : Fin 5 → AstRand) (s : GameState) :
    (handleCollisions rs s).bullets = s.bullets ∧
    (handleCollisions rs s).score = s.score +
      100 * (s.asteroids.countP
        (fun a => s.bullets.any (fun b => checkCollision b.obj a)) : ℤ) ∧
    s.score ≤ (handleCollisions rs s).score := by
  refine ⟨rfl, rfl, ?_⟩
  have h : (handleCollisions rs s).score = s.score +
      100 * (s.asteroids.countP
        (fun a => s.bullets.any (fun b => checkCollision b.obj a)) : ℤ) := rfl
  rw [h]
  have hp : (0:ℤ) ≤ 100 * (s.asteroids.countP
      (fun a => s.bullets.any (fun b => checkCollision b.obj a)) : ℤ) := by positivity
  linarith

/-! ### C9 -/

/-- C9: `handleCollisions` recomputes the gameOver flag from false and
never reads the incoming one: if the ship does not collide with any
asteroid, or the post-decrement lives are still positive, the returned
flag is false even when the input state had `gameOver = true`. -/
theorem C9_gameOver_recomputed (rs : Fin 5 → AstRand) (s : GameState)
    (hgo : s.gameOver = true)
    (h : s.asteroids.all (fun a => !(checkCollision s.ship.obj a)) = true ∨
      1 < s.lives) :
    (handleCollisions rs s).gameOver = false := by
  rcases h with h | h
  · have hany : s.asteroids.any (fun a => checkCollision s.ship.obj a) = false := by
      simp only [List.any_eq_false]
      intro a ha
      have h2 := List.all_eq_true.mp h a ha
      simp only [Bool.not_eq_true'] at h2
      simp [h2]
    simp [handleCollisions, hany]
  · by_cases hany : s.asteroids.any (fun a => checkCollision s.ship.obj a) = true
    · simp only [handleCollisions, hany]
      simp only [if_true, Bool.true_and, decide_eq_false_iff_not]
      omega
    · have hany' : s.asteroids.any (fun a => checkCollision s.ship.obj a) = false := by
        simpa using hany
      simp [handleCollisions, hany']

/-- C9 witness: a game-over input state with no asteroids and 5 lives
comes back from the resolver with `gameOver = false`. -/
theorem C9_witness :
    stateOverSafe.gameOver = true ∧
    (handleCollisions rsW stateOverSafe).gameOver = false :=
  ⟨rfl, C9_gameOver_recomputed rsW stateOverSafe rfl (Or.inl rfl)⟩

/-! ### C10 -/

/-- C10: `updateGameObjects` leaves score, lives and gameOver unchanged,
leaves the ship's size, thrusting flag and rotation unchanged, leaves
every asteroid's size, velocity and vertices unchanged, and every
surviving bullet keeps its size, velocity and rotation (the bullet list
itself may shrink). -/
theorem C10_frame (s : GameState) (w h : ℝ) :
    (updateGameObjects s w h).score = s.score ∧
    (updateGameObjects s w h).lives = s.lives ∧
    (updateGameObjects s w h).gameOver = s.gameOver ∧
    (updateGameObjects s w h).ship.size = s.ship.size ∧
    (updateGameObjects s w h).ship.thrusting = s.ship.thrusting ∧
    (updateGameObjects s w h).ship.rotation = s.ship.rotation ∧
    (updateGameObjects s w h).asteroids.map (fun a => (a.size, a.velocity, a.vertices)) =
      s.asteroids.map (fun a => (a.size, a.velocity, a.vertices)) ∧
    ((updateGameObjects s w h).bullets.map (fun b => (b.size, b.velocity, b.rotation))).Sublist
      (s.bullets.map (fun b => (b.size, b.velocity, b.rotation))) := by
  refine ⟨rfl, rfl, rfl, rfl, rfl, rfl, ?_, ?_⟩
  · show (s.asteroids.map (updateAsteroid w h)).map _ = _
    rw [List.map_map]
    rfl
  · have h1 : ((s.bullets.map (updateBullet w h)).filter
        (fun b => decide (0 < b.lifespan))).Sublist (s.bullets.map (updateBullet w h)) :=
      List.filter_sublist _
    have h2 := h1.map (fun b => (b.size, b.velocity, b.rotation))
    rw [List.map_map] at h2
    exact h2

/-! ### C6 -/

/-- One update step on a bullet list: lifespans are decremented and the
non-positive ones dropped. -/
theorem bullet_lifespans_step (w h : ℝ) (bs : List Bullet) :
    ((bs.map (updateBullet w h)).filter (fun b => decide (0 < b.lifespan))).map Bullet.lifespan
      = ((bs.map Bullet.lifespan).map (fun n => n - 1)).filter (fun n => decide (0 < n)) := by
  induction bs with
  | nil => rfl
  | cons b bs ih =>
      simp only [List.map_cons, List.filter_cons]
      have hb : (updateBullet w h b).lifespan = b.lifespan - 1 := rfl
      rw [hb]
      by_cases hp : 0 < b.lifespan - 1
      · rw [if_pos (by simpa using hp), if_pos (by simpa using hp)]
        simp only [List.map_cons, hb, ih]
      · rw [if_neg (by simpa using hp), if_neg (by simpa using hp)]
        exact ih

/-- Decrement-and-drop steps compose: filtering the positives of a shift
by `c`, decrementing once more and filtering again equals one shift by
`c + 1`. -/
theorem filter_pos_shift (c : ℤ) (L : List ℤ) :
    (((L.map (fun n => n - c)).filter (fun n => decide (0 < n))).map
        (fun n => n - 1)).filter (fun n => decide (0 < n))
      = (L.map (fun n => n - (c + 1))).filter (fun n => decide (0 < n)) := by
  induction L with
  | nil => rfl
  | cons x L ih =>
      simp only [List.map_cons, List.filter_cons]
      by_cases h1 : 0 < x - c
      · rw [if_pos (by simpa using h1)]
        simp only [List.map_cons, List.filter_cons]
        by_cases h2 : 0 < x - c - 1
        · rw [if_pos (by simpa using h2),
            if_pos (by simpa using (by omega : 0 < x - (c + 1)))]
          rw [ih]
          congr 1
          omega
        · rw [if_neg (by simpa using h2),
            if_neg (by simpa using (by omega : ¬ 0 < x - (c + 1)))]
          exact ih
      · rw [if_neg (by simpa using h1),
          if_neg (by simpa using (by omega : ¬ 0 < x - (c + 1)))]
        exact ih

/-- `updateGameObjects` acts on bullet lifespans by decrementing and
filtering. -/
theorem bullets_lifespan_update (w h : ℝ) (s : GameState) :
    ((updateGameObjects s w h).bullets.map Bullet.lifespan)
      = ((s.bullets.map Bullet.lifespan).map (fun n => n - 1)).filter
          (fun n => decide (0 < n)) :=
  bullet_lifespans_step w h s.bullets

/-- After `k + 1` ticks the surviving bullet lifespans are exactly the
input lifespans shifted down by `k + 1`, keeping the positive ones. -/
theorem bullet_lifespans_iterate (w h : ℝ) (s : GameState) :
    ∀ k : ℕ, (((fun t => updateGameObjects t w h)^[k + 1] s).bullets.map Bullet.lifespan)
      = ((s.bullets.map Bullet.lifespan).map (fun n => n - ((k : ℤ) + 1))).filter
          (fun n => decide (0 < n))
  | 0 => by
      show ((fun t => updateGameObjects t w h)^[1] s).bullets.map Bullet.lifespan = _
      rw [Function.iterate_one]
      have h1 := bullets_lifespan_update w h s
      have h2 : ((0 : ℕ) : ℤ) + 1 = 1 := by norm_num
      rw [h2]
      exact h1
  | (k + 1) => by
      rw [Function.iterate_succ_apply']
      have hb : (updateGameObjects ((fun t => updateGameObjects t w h)^[k + 1] s) w h).bullets.map
            Bullet.lifespan
          = (((((fun t => updateGameObjects t w h)^[k + 1] s).bullets.map
              Bullet.lifespan).map (fun n => n - 1)).filter (fun n => decide (0 < n))) :=
        bullets_lifespan_update w h _
      have hcast : ((k : ℤ) + 1) + 1 = (((k + 1 : ℕ) : ℤ) + 1) := by push_cast; ring
      calc ((fun t => updateGameObjects t w h)
              ((fun t => updateGameObjects t w h)^[k + 1] s)).bullets.map Bullet.lifespan
        = ((((fun t => updateGameObjects t w h)^[k + 1] s).bullets.map
            Bullet.lifespan).map (fun n => n - 1)).filter (fun n => decide (0 < n)) := hb
      _ = ((((s.bullets.map Bullet.lifespan).map (fun n => n - ((k : ℤ) + 1))).filter
            (fun n => decide (0 < n))).map (fun n => n - 1)).filter
            (fun n => decide (0 < n)) := by
            rw [bullet_lifespans_iterate w h s k]
      _ = ((s.bullets.map Bullet.lifespan).map (fun n => n - (((k : ℤ) + 1) + 1))).filter
            (fun n => decide (0 < n)) := filter_pos_shift _ _
      _ = ((s.bullets.map Bullet.lifespan).map (fun n => n - (((k + 1 : ℕ) : ℤ) + 1))).filter
            (fun n => decide (0 < n)) := by rw [hcast]

/-- C6: every `updateGameObjects` call decrements each bullet's lifespan
by exactly one and excludes bullets whose new lifespan is `≤ 0`; hence a
bullet with lifespan 1 is removed after one tick, and a single bullet
with lifespan 60 is still present after 59 ticks and absent after 60. -/
theorem C6_bullet_lifespan (s : GameState) (w h : ℝ) :
    ((updateGameObjects s w h).bullets =
      (s.bullets.map (updateBullet w h)).filter (fun b => decide (0 < b.lifespan))) ∧
    (s.bullets.map Bullet.lifespan = [1] → (updateGameObjects s w h).bullets = []) ∧
    (s.bullets.map Bullet.lifespan = [60] →
      (((fun t => updateGameObjects t w h)^[59] s).bullets.map Bullet.lifespan = [1]) ∧
      ((fun t => updateGameObjects t w h)^[60] s).bullets = []) := by
  refine ⟨rfl, ?_, ?_⟩
  · intro h1
    have h2 := bullets_lifespan_update w h s
    rw [h1] at h2
    have h3 : (updateGameObjects s w h).bullets.map Bullet.lifespan = [] := by
      rw [h2]
      decide
    exact List.map_eq_nil_iff.mp h3
  · intro h60
    constructor
    · rw [show (59:ℕ) = 58 + 1 from rfl, bullet_lifespans_iterate w h s 58, h60]
      decide
    · have h2 : ((fun t => updateGameObjects t w h)^[60] s).bullets.map Bullet.lifespan = [] := by
        rw [show (60:ℕ) = 59 + 1 from rfl, bullet_lifespans_iterate w h s 59, h60]
        decide
      exact List.map_eq_nil_iff.mp h2

/-- C6 witness: a concrete state holding a single bullet of lifespan 60
still has it after 59 ticks and loses it on tick 60. -/
theorem C6_witness :
    stateBul.bullets.map Bullet.lifespan = [60] ∧
    ((fun t => updateGameObjects t 800 600)^[59] stateBul).bullets.map Bullet.lifespan = [1] ∧
    ((fun t => updateGameObjects t 800 600)^[60] stateBul).bullets = [] := by
  have h := (C6_bullet_lifespan stateBul 800 600).2.2 rfl
  exact ⟨rfl, h.1, h.2⟩

/-! ### C7 -/

/-- C7: after every `updateGameObjects` call the ship's speed is at most
`maxSpeed = 5`; whenever the post-friction speed exceeds 5, the velocity
is rescaled to magnitude exactly 5. -/
theorem C7_speed_clamped (s : GameState) (w h : ℝ) :
    speedOf (updateGameObjects s w h).ship.velocity ≤ 5 ∧
    (5 < speedOf (shipVelFriction s.ship) →
      speedOf (updateGameObjects s w h).ship.velocity = 5) := by
  have hv : (updateGameObjects s w h).ship.velocity = shipVelClamped s.ship := rfl
  by_cases hgt : 5 < speedOf (shipVelFriction s.ship)
  · have hsp0 : 0 < speedOf (shipVelFriction s.ship) := lt_trans (by norm_num) hgt
    have heq : speedOf (shipVelClamped s.ship) = 5 := by
      unfold shipVelClamped
      rw [if_pos hgt]
      show Real.sqrt
        ((shipVelFriction s.ship).x * (5 / speedOf (shipVelFriction s.ship)) *
          ((shipVelFriction s.ship).x * (5 / speedOf (shipVelFriction s.ship))) +
         (shipVelFriction s.ship).y * (5 / speedOf (shipVelFriction s.ship)) *
          ((shipVelFriction s.ship).y * (5 / speedOf (shipVelFriction s.ship)))) = 5
      have h1 : (shipVelFriction s.ship).x * (5 / speedOf (shipVelFriction s.ship)) *
            ((shipVelFriction s.ship).x * (5 / speedOf (shipVelFriction s.ship))) +
          (shipVelFriction s.ship).y * (5 / speedOf (shipVelFriction s.ship)) *
            ((shipVelFriction s.ship).y * (5 / speedOf (shipVelFriction s.ship)))
          = (5 / speedOf (shipVelFriction s.ship)) ^ 2 *
            ((shipVelFriction s.ship).x * (shipVelFriction s.ship).x +
             (shipVelFriction s.ship).y * (shipVelFriction s.ship).y) := by ring
      rw [h1, Real.sqrt_mul (sq_nonneg _) _,
        Real.sqrt_sq (div_nonneg (by norm_num) hsp0.le)]
      have h2 : Real.sqrt ((shipVelFriction s.ship).x * (shipVelFriction s.ship).x +
          (shipVelFriction s.ship).y * (shipVelFriction s.ship).y)
          = speedOf (shipVelFriction s.ship) := rfl
      rw [h2]
      exact div_mul_cancel₀ 5 hsp0.ne'
    rw [hv]
    exact ⟨le_of_eq heq, fun _ => heq⟩
  · have heq : shipVelClamped s.ship = shipVelFriction s.ship := by
      unfold shipVelClamped
      rw [if_neg hgt]
    rw [hv, heq]
    exact ⟨not_lt.mp hgt, fun hc => absurd hc hgt⟩

/-- C7 witness: a ship entering the tick at speed 100 leaves friction at
speed 99 and is rescaled so that its post-update speed is exactly 5. -/
theorem C7_witness :
    5 < speedOf (shipVelFriction stateFast.ship) ∧
    speedOf (updateGameObjects stateFast 800 600).ship.velocity = 5 := by
  have hf : shipVelFriction stateFast.ship = ⟨99, 0⟩ := by
    show shipVelFriction shipFast = ⟨99, 0⟩
    unfold shipVelFriction shipVelThrust shipFast
    simp
    norm_num
  have hsp : speedOf (⟨99, 0⟩ : Point) = 99 := by
    show Real.sqrt ((99:ℝ) * 99 + 0 * 0) = 99
    rw [show (99:ℝ) * 99 + 0 * 0 = 99 ^ 2 by norm_num,
      Real.sqrt_sq (by norm_num : (0:ℝ) ≤ 99)]
  have hgt : 5 < speedOf (shipVelFriction stateFast.ship) := by
    rw [hf, hsp]
    norm_num
  exact ⟨hgt, (C7_speed_clamped stateFast 800 600).2 hgt⟩

end

end AsteroidsGame
